import Mathlib

/-!
Verification of the core logic of the `c3chatbot` repository
(`c3chatbot.py`): the safe SQL gateway (`execute_sql`), the retrieval
filter (`top_chunks`), the conversation memory (`remember` /
`reset_memory`), the intent classifier (`intent`) and the reply
orchestrator (`generate_reply`).

External effects (the ODBC database, the OpenAI embedding and chat
endpoints, FAISS nearest-neighbour search) are modelled as explicit
parameters/oracles; the Python control flow and data manipulation are
translated directly.
-/

namespace C3Chatbot

/-! ## Python string primitives

`str.strip()`, `str.lower()`, `str.startswith()` and the `in`
containment test, modelled on the character list of a `String`
(ASCII-faithful: the keywords of the chatbot and SQL prefix are ASCII). -/

/-- Python `str.isspace` characters relevant to `str.strip()`
(ASCII whitespace). -/
def pyIsSpace (c : Char) : Bool :=
  c = ' ' || c = '\t' || c = '\n' || c = '\x0d' || c = '\x0b' || c = '\x0c'

/-- Python `str.strip()`: remove leading and trailing whitespace. -/
def pyStrip (s : String) : String :=
  ⟨((s.data.dropWhile pyIsSpace).reverse.dropWhile pyIsSpace).reverse⟩

/-- Lower-casing of a single character (ASCII range, as in the
keywords and SQL prefixes the chatbot compares against). -/
def pyCharLower (c : Char) : Char :=
  if 65 ≤ c.toNat && c.toNat ≤ 90 then Char.ofNat (c.toNat + 32) else c

/-- Python `str.lower()`. -/
def pyLower (s : String) : String :=
  ⟨s.data.map pyCharLower⟩

/-- Python `str.startswith(pre)`. -/
def pyStartsWith (s pre : String) : Bool :=
  pre.data.isPrefixOf s.data

/-- Python `sub in s` (substring containment). -/
def pyContains (s sub : String) : Bool :=
  (List.range (s.data.length + 1)).any fun i => sub.data.isPrefixOf (s.data.drop i)

/-! ## Safe Query Gateway: `execute_sql` (c3chatbot.py lines 60-71)

The Python function is

```
def execute_sql(sql: str):
    sql_clean = sql.strip().lower()
    if not sql_clean.startswith("select"):
        raise ValueError("Only SELECT queries are allowed.")
    conn = get_db_conn()
    cur = conn.cursor()
    cur.execute(sql)
    cols = [c[0] for c in cur.description]
    rows = cur.fetchall()
    cur.close()
    conn.close()
    return [dict(zip(cols, row)) for row in rows]
```

The database engine is modelled by `DbBehavior`: whether connecting,
executing and fetching succeed, and the column names / rows returned.
The function returns its result together with the trace of resource
events that occurred during the call, so that statements about
connection acquisition and release can be made.  Note that the Python
code has no `try/finally`: when `cur.execute` or `cur.fetchall`
raises, the exception propagates and `conn.close()` is never reached;
the model reproduces exactly that.
-/

/-- Errors raised by `execute_sql`: the `ValueError` of the validation
step, or an exception from the database driver. -/
inductive SqlError where
  | validation (msg : String)
  | dbError (msg : String)
deriving DecidableEq, Repr

/-- The string form of the exception, as interpolated by
`f"SQL error: \x7be\x7d"` in `generate_reply`. -/
def SqlError.message : SqlError → String
  | .validation m => m
  | .dbError m => m

/-- Resource / execution events of one `execute_sql` call. -/
inductive DbEvent where
  | openConn
  | execQuery (sql : String)
  | fetchRows
  | closeCursor
  | closeConn
deriving DecidableEq, Repr

/-- Behaviour of the external database engine during one call:
whether `pyodbc.connect`, `cur.execute` and `cur.fetchall` succeed
(with the exception messages they raise otherwise), and the column
names and rows produced on success. -/
structure DbBehavior where
  connOk : Bool
  connErr : String
  execOk : Bool
  execErr : String
  fetchOk : Bool
  fetchErr : String
  cols : List String
  rows : List (List String)
deriving Repr

/-- `execute_sql` from c3chatbot.py lines 60-71.  Returns the Python
return value (or the exception that propagates) together with the
trace of database events of the call.  `dict(zip(cols, row))` is
modelled by `cols.zip row` (Python `zip` truncates to the shorter
sequence, as does `List.zip`). -/
def execute_sql (db : DbBehavior) (sql : String) :
    Except SqlError (List (List (String × String))) × List DbEvent :=
  if (pyStartsWith (pyLower (pyStrip sql)) "select") = false then
    (.error (.validation "Only SELECT queries are allowed."), [])
  else if db.connOk = false then
    -- get_db_conn() raised: no connection was acquired
    (.error (.dbError db.connErr), [])
  else if db.execOk = false then
    -- cur.execute(sql) raised after the connection was opened;
    -- there is no finally-block, so conn.close() is never reached
    (.error (.dbError db.execErr), [.openConn])
  else if db.fetchOk = false then
    -- cur.fetchall() raised; again conn.close() is never reached
    (.error (.dbError db.fetchErr), [.openConn, .execQuery sql])
  else
    (.ok (db.rows.map (fun r => db.cols.zip r)),
     [.openConn, .execQuery sql, .fetchRows, .closeCursor, .closeConn])

/-! ## Retrieval filter: `top_chunks` (c3chatbot.py lines 413-427)

```
def top_chunks(query, k=3):
    qvec = ...embedding of query...
    D, I = faiss_idx.search(qvec.reshape(1, -1), k)
    out = []
    for idx, dist in zip(I[0], D[0]):
        if idx == -1:
            continue
        cos = np.dot(vectors[idx], qvec) / (np.linalg.norm(vectors[idx]) * np.linalg.norm(qvec))
        if cos >= 0.45:
            out.append(knowledge_chunks[idx])
    return out
```

The OpenAI embedding call and the FAISS search are external: they are
modelled by the index row `I` (a list of `k` chunk indices, `-1` for a
missing neighbour) and distance row `D` returned by
`faiss_idx.search`, and by `cosSim idx`, the cosine similarity between
the embedding of chunk `idx` and the query embedding (a real-valued
score, modelled in `ℚ`).  The corpus `knowledge_chunks` is the `chunks`
parameter.  The loop itself is translated directly. -/

/-- One step of the `for idx, dist in zip(I[0], D[0])` loop body of
`top_chunks`. -/
def topChunksStep (chunks : List String) (cosSim : Nat → ℚ)
    (out : List String) (p : Int × ℚ) : List String :=
  if p.1 = -1 then out
  else if (45 : ℚ) / 100 ≤ cosSim p.1.toNat then out ++ [chunks.getD p.1.toNat ""]
  else out

/-- `top_chunks` from c3chatbot.py lines 413-427 (the post-search
filtering loop; `I`/`D` are the FAISS search output rows and `cosSim`
the cosine re-score against the query embedding). -/
def top_chunks (chunks : List String) (cosSim : Nat → ℚ)
    (I : List Int) (D : List ℚ) : List String :=
  (I.zip D).foldl (topChunksStep chunks cosSim) []

/-! ## Conversation memory (c3chatbot.py lines 432-441)

```
MAX_TURNS = 10
convo = {}

def remember(psid, role, text):
    convo.setdefault(psid, []).append({"role": role, "text": text})
    if len(convo[psid]) > MAX_TURNS * 2:
        convo[psid] = convo[psid][-MAX_TURNS * 2:]

def reset_memory(psid):
    convo.pop(psid, None)
```

The dictionary `convo` is modelled as a map from PSID to an optional
turn list (`none` = key absent, as after `pop`). -/

def MAX_TURNS : Nat := 10

/-- One `{"role": ..., "text": ...}` entry of a user history. -/
structure ConvoTurn where
  role : String
  text : String
deriving DecidableEq, Repr

/-- The `convo` dictionary: PSID to stored history (`none` when the
key is absent). -/
def Convo : Type := String → Option (List ConvoTurn)

/-- The initial empty `convo = {}`. -/
def emptyConvo : Convo := fun _ => none

/-- `remember(psid, role, text)`: `setdefault` + `append`, then trim
to the last `MAX_TURNS * 2` entries when the bound is exceeded
(`convo[psid][-MAX_TURNS * 2:]` keeps the final `MAX_TURNS * 2`
elements, i.e. drops `len - MAX_TURNS * 2` from the front). -/
def remember (c : Convo) (psid role text : String) : Convo :=
  fun p =>
    if p = psid then
      let l := (c psid).getD [] ++ [⟨role, text⟩]
      some (if l.length > MAX_TURNS * 2 then l.drop (l.length - MAX_TURNS * 2) else l)
    else c p

/-- `reset_memory(psid)`: `convo.pop(psid, None)`. -/
def reset_memory (c : Convo) (psid : String) : Convo :=
  fun p => if p = psid then none else c p

/-- The history a reader of the store observes for `psid`
(`convo.get(psid, [])`, as read in `generate_reply`). -/
def readHistory (c : Convo) (psid : String) : List ConvoTurn :=
  (c psid).getD []

/-! ## Intent classifier: `intent` (c3chatbot.py lines 446-454)

```
def intent(msg):
    txt = msg.lower()
    if any(w in txt for w in ["cut-off", "cutoff", "pamutol"]):
        return "cutoff"
    if any(w in txt for w in ["bill", "payment", "balance"]):
        return "billing"
    if any(w in txt for w in ["outage", "brownout", "no power", "power situation"]):
        return "outage"
    return "general"
```
-/

def cutoffKeywords : List String := ["cut-off", "cutoff", "pamutol"]

def billingKeywords : List String := ["bill", "payment", "balance"]

def outageKeywords : List String := ["outage", "brownout", "no power", "power situation"]

/-- `intent` from c3chatbot.py lines 446-454. -/
def intent (msg : String) : String :=
  let txt := pyLower msg
  if cutoffKeywords.any (fun w => pyContains txt w) then "cutoff"
  else if billingKeywords.any (fun w => pyContains txt w) then "billing"
  else if outageKeywords.any (fun w => pyContains txt w) then "outage"
  else "general"

/-! ## Reply orchestrator: `generate_reply` (c3chatbot.py lines 493-586)

The OpenAI chat completions and the embedding-based retrieval are
external calls; they are modelled by a `TurnOracle`:
  * `retrieval q` is the outcome of `top_chunks(q)` — either the chunk
    list or the exception the embedding/search call raised;
  * `firstCall msgs` is the outcome of the first
    `chat.completions.create` (with the `execute_sql` capability
    declared): an exception, or a message with an optional function
    call (its `arguments` already parsed to the `sql` string) and a
    content string;
  * `followup msgs` is the outcome of the second
    `chat.completions.create` (no capability declared);
  * `db` is the database behaviour seen by `execute_sql`;
  * `dumps` is `json.dumps(result, default=str)`.
The function returns the reply (or the exception that propagates out
of `generate_reply` — the Python function has no `try/except` other
than the one around `execute_sql`), the updated `convo` store, and
the number of chat-completion requests issued during the turn. -/

/-- The canned reply of the `cutoff` intent (lines 500-524). -/
def cutoffReply : String :=
  "Here are the scheduled cut-off dates (“Petsa sa Pamutol”) by area:\n  • Asturias – 4th of the month  \n  • Balamban – 8th of the month  \n  • Aloguinsan – 10th of the month  \n  • Pinamungajan – 12th of the month  \n  • Cebu City Areas – 12th of the month  \n  • Special Bills – 14th of the month  \n  • Lutopan – 24th of the month  \n  • Toledo City – 27th of the month  \n\n*Payments not received* by the cut-off date will result in service suspension plus a 2% monthly surcharge.  \nHowever, per the ERC’s Magna Carta for Residential Electricity Consumers (Res. 12-09), CEBECO III *must* suspend any disconnection if:\n  1. A customer’s household has someone on life-support equipment (medical cert. required).  \n  2. A funeral wake is being held on the premises.  \n  3. The customer never received the Final Disconnection Notice (FDN).  \n  4. A billing error charged multiple months at once.  \n  5. The customer settles the current bill within 24 hours of the first cut-off attempt (once per billing cycle).  \n\nAnd *no disconnections* may occur on:\n  – Fridays, weekends, national/local holidays, or the day before these.  \n  – Holy Week (Maundy Thursday through Easter Sunday).  \n  – Any ERC-declared moratorium days (e.g. grid emergencies, public calamities).  \n\nRegistered senior citizens, PWDs, or life-support households also get an automatic 30-day extension after the FDN."

/-- The canned reply of the `billing` intent (lines 526-531). -/
def billingReply : String :=
  "To check your current balance please send your Consumer ID.\nPayments can be made via GCash → Bills → CEBECO III, Palawan Pawnshop, 7-Eleven CliQQ or at any area office."

/-- The canned reply of the `outage` intent (lines 532-537). -/
def outageReply : String :=
  "For outage reports please include your complete address and Consumer ID. Current grid advisory: see Power-Situation bulletins on our FB page. You may also call our 24×7 hotline (032) 467-9-112."

/-- One entry of the `messages` list sent to the chat API.
`functionCall` carries the `sql` argument of an assistant
function-call message (arguments modelled post-`json.loads`). -/
structure ChatMsg where
  role : String
  content : Option String
  name : Option String
  functionCall : Option String
deriving DecidableEq, Repr

/-- The message of the first chat completion (`resp.choices[0].message`):
an optional function call (its parsed `sql` argument) and the content
used when no function call is present. -/
structure LLMOut where
  functionCallSql : Option String
  content : String
deriving DecidableEq, Repr

/-- The external services touched during one `generate_reply` turn. -/
structure TurnOracle where
  retrieval : String → Except String (List String)
  firstCall : List ChatMsg → Except String LLMOut
  followup : List ChatMsg → Except String String
  db : DbBehavior
  dumps : List (List (String × String)) → String

/-- The system message built at lines 541-545 from the retrieved
chunks. -/
def systemPrompt (chunks : List String) : String :=
  "You are the CEBECO3 assistant. You have a knowledge base and can call execute_sql(sql) to fetch system‐loss data from TSD.SystemLoss.\n\nKnowledge Base:\n"
    ++ String.intercalate "\n" chunks

/-- The `messages` list built at lines 547-550: the system message,
the stored history of the user (which at this point already contains
the current user message, remembered at line 494), and the user
message once more. -/
def builtMessages (c1 : Convo) (psid user_msg : String) (chunks : List String) : List ChatMsg :=
  ⟨"system", some (systemPrompt chunks), none, none⟩ ::
    ((readHistory c1 psid).map (fun t => (⟨t.role, some t.text, none, none⟩ : ChatMsg))
      ++ [⟨"user", some user_msg, none, none⟩])

/-- `generate_reply(psid, user_msg)` from c3chatbot.py lines 493-586.
Returns `(outcome, updated convo store, number of chat requests)`;
`outcome` is `.ok reply` when the function returns and `.error e`
when exception `e` propagates out of it. -/
def generate_reply (o : TurnOracle) (c : Convo) (psid user_msg : String) :
    Except String String × Convo × Nat :=
  -- remember(psid, "user", user_msg)
  let c1 := remember c psid "user" user_msg
  -- canned responses: each branch returns without a further memory update
  if intent user_msg = "cutoff" then (.ok cutoffReply, c1, 0)
  else if intent user_msg = "billing" then (.ok billingReply, c1, 0)
  else if intent user_msg = "outage" then (.ok outageReply, c1, 0)
  else
    -- chunks = top_chunks(user_msg): an embedding failure propagates
    match o.retrieval user_msg with
    | .error e => (.error e, c1, 0)
    | .ok chunks =>
      let messages := builtMessages c1 psid user_msg chunks
      match o.firstCall messages with
      | .error e => (.error e, c1, 1)
      | .ok msg =>
        match msg.functionCallSql with
        | some sql =>
          match (execute_sql o.db sql).1 with
          | .error e =>
            -- answer = f"⚠️ SQL error: \x7be\x7d"; no second request
            let answer := "⚠️ SQL error: " ++ e.message
            (.ok answer, remember c1 psid "assistant" answer, 1)
          | .ok result =>
            let messages2 := messages
              ++ [⟨"assistant", none, none, some sql⟩,
                  ⟨"function", some (o.dumps result), some "execute_sql", none⟩]
            match o.followup messages2 with
            | .error e => (.error e, c1, 2)
            | .ok content =>
              let answer := pyStrip content
              (.ok answer, remember c1 psid "assistant" answer, 2)
        | none =>
          let answer := pyStrip msg.content
          (.ok answer, remember c1 psid "assistant" answer, 1)

/-! ## Theorems -/

/-- The validation prefix check of `execute_sql`
(`sql.strip().lower().startswith("select")`). -/
def isSelectQuery (sql : String) : Bool :=
  pyStartsWith (pyLower (pyStrip sql)) "select"

lemma execute_sql_rejected (db : DbBehavior) (sql : String)
    (h : isSelectQuery sql = false) :
    execute_sql db sql = (.error (.validation "Only SELECT queries are allowed."), []) := by
  unfold execute_sql
  rw [show pyStartsWith (pyLower (pyStrip sql)) "select" = false from h]
  simp

lemma execute_sql_passed_not_validation (db : DbBehavior) (sql : String)
    (h : isSelectQuery sql = true) (m : String) :
    (execute_sql db sql).1 ≠ .error (.validation m) := by
  unfold execute_sql
  rw [show pyStartsWith (pyLower (pyStrip sql)) "select" = true from h]
  simp only [Bool.true_eq_false, if_false]
  split_ifs <;> simp

/-- C2: `execute_sql` raises the validation error exactly when the
stripped, lower-cased input does not start with `"select"`; on a
rejected input no database event (in particular no connection
opening) occurs; `"DROP TABLE x"` and `"INSERT INTO x VALUES (1)"`
are rejected while `"  Select * from Foo"` passes validation,
whatever the database behaviour. -/
theorem execute_sql_select_gate (db : DbBehavior) (sql : String) :
    ((execute_sql db sql).1 = .error (.validation "Only SELECT queries are allowed.")
      ↔ isSelectQuery sql = false) ∧
    (isSelectQuery sql = false → (execute_sql db sql).2 = []) ∧
    (execute_sql db "DROP TABLE x").1
      = .error (.validation "Only SELECT queries are allowed.") ∧
    (execute_sql db "INSERT INTO x VALUES (1)").1
      = .error (.validation "Only SELECT queries are allowed.") ∧
    (execute_sql db "  Select * from Foo").1
      ≠ .error (.validation "Only SELECT queries are allowed.") := by
  refine ⟨⟨?_, ?_⟩, ?_, ?_, ?_, ?_⟩
  · intro h
    cases hs : isSelectQuery sql with
    | false => rfl
    | true => exact absurd h (execute_sql_passed_not_validation db sql hs _)
  · intro h
    rw [execute_sql_rejected db sql h]
  · intro h
    rw [execute_sql_rejected db sql h]
  · rw [execute_sql_rejected db "DROP TABLE x" (by decide)]
  · rw [execute_sql_rejected db "INSERT INTO x VALUES (1)" (by decide)]
  · exact execute_sql_passed_not_validation db "  Select * from Foo" (by decide) _

/-- A concrete instantiation of `execute_sql_select_gate`: a database
whose engine never fails. -/
def demoDb : DbBehavior :=
  ⟨true, "", true, "", true, "",
   ["YEAR_MONTH_DAY", "SystemLoss"], [["2025-03-01", "7.9"]]⟩

/-- Witness for C2 at a concrete input: the rejected statement
`"DROP TABLE x"` produces the validation error and an empty event
trace. -/
theorem execute_sql_select_gate_witness :
    isSelectQuery "DROP TABLE x" = false ∧ (execute_sql demoDb "DROP TABLE x").2 = [] :=
  ⟨by decide, (execute_sql_select_gate demoDb "DROP TABLE x").2.1 (by decide)⟩

/-- The database behaviour of the C6 failing input: connecting
succeeds, `cur.execute` raises (e.g. the SELECT names a table the
engine does not know). -/
def execFailDb : DbBehavior :=
  ⟨true, "", false, "Invalid object name NoSuchTable.", true, "", [], []⟩

/-- C6 (failing-input evaluation): for a validated SELECT whose
execution raises, `execute_sql` opens a connection, propagates the
exception, and never closes the connection — the function body has no
`try/finally`, so `conn.close()` is unreachable on this path.  This
contradicts the claim that the connection is released on every exit
path. -/
theorem execute_sql_leaks_connection_on_exec_error :
    (execute_sql execFailDb "select * from NoSuchTable").1
      = .error (.dbError "Invalid object name NoSuchTable.") ∧
    DbEvent.openConn ∈ (execute_sql execFailDb "select * from NoSuchTable").2 ∧
    DbEvent.closeConn ∉ (execute_sql execFailDb "select * from NoSuchTable").2 :=
  ⟨rfl, by decide, by decide⟩

/-- C9: `reset_memory` is total and idempotent: on a user with no
stored history it changes nothing, a second reset is a no-op, and a
read after a reset sees an empty history. -/
theorem reset_memory_idempotent_total (c : Convo) (psid : String) :
    (c psid = none → reset_memory c psid = c) ∧
    reset_memory (reset_memory c psid) psid = reset_memory c psid ∧
    readHistory (reset_memory c psid) psid = [] := by
  refine ⟨?_, ?_, ?_⟩
  · intro h
    funext p
    by_cases hp : p = psid
    · subst hp; simp [reset_memory, h]
    · simp [reset_memory, hp]
  · funext p
    by_cases hp : p = psid <;> simp [reset_memory, hp]
  · simp [readHistory, reset_memory]

/-- Witness for C9: resetting a user absent from the empty store
leaves the store unchanged. -/
theorem reset_memory_idempotent_total_witness :
    emptyConvo "24680" = none ∧ reset_memory emptyConvo "24680" = emptyConvo :=
  ⟨rfl, (reset_memory_idempotent_total emptyConvo "24680").1 rfl⟩

/-- C10: per-key isolation — `remember` and `reset_memory` on user
`u` leave the entry of every other user `v` unchanged. -/
theorem store_per_key_isolation (c : Convo) (u v role text : String) (h : u ≠ v) :
    (remember c u role text) v = c v ∧ (reset_memory c u) v = c v := by
  have hv : ¬ (v = u) := fun hv => h hv.symm
  constructor <;> simp [remember, reset_memory, hv]

/-- Witness for C10 at concrete distinct users. -/
theorem store_per_key_isolation_witness :
    ("1357" : String) ≠ "2468" ∧
    (remember emptyConvo "1357" "user" "hi") "2468" = emptyConvo "2468" ∧
    (reset_memory emptyConvo "1357") "2468" = emptyConvo "2468" :=
  ⟨by decide, (store_per_key_isolation emptyConvo "1357" "2468" "user" "hi" (by decide)).1,
   (store_per_key_isolation emptyConvo "1357" "2468" "user" "hi" (by decide)).2⟩

/-- C3: the classifier is a strict priority chain over
case-insensitive substring hits — any cutoff keyword in the
lower-cased message yields `"cutoff"` regardless of other keywords;
otherwise a billing keyword yields `"billing"`; otherwise an outage
keyword yields `"outage"`; otherwise `"general"`. -/
theorem intent_priority_chain (msg : String) :
    ((∃ w ∈ cutoffKeywords, pyContains (pyLower msg) w = true) → intent msg = "cutoff") ∧
    (¬ (∃ w ∈ cutoffKeywords, pyContains (pyLower msg) w = true) →
      (∃ w ∈ billingKeywords, pyContains (pyLower msg) w = true) → intent msg = "billing") ∧
    (¬ (∃ w ∈ cutoffKeywords, pyContains (pyLower msg) w = true) →
      ¬ (∃ w ∈ billingKeywords, pyContains (pyLower msg) w = true) →
      (∃ w ∈ outageKeywords, pyContains (pyLower msg) w = true) → intent msg = "outage") ∧
    (¬ (∃ w ∈ cutoffKeywords, pyContains (pyLower msg) w = true) →
      ¬ (∃ w ∈ billingKeywords, pyContains (pyLower msg) w = true) →
      ¬ (∃ w ∈ outageKeywords, pyContains (pyLower msg) w = true) →
      intent msg = "general") := by
  have e1 : (cutoffKeywords.any fun w => pyContains (pyLower msg) w) = true ↔
      ∃ w ∈ cutoffKeywords, pyContains (pyLower msg) w = true := List.any_eq_true
  have e2 : (billingKeywords.any fun w => pyContains (pyLower msg) w) = true ↔
      ∃ w ∈ billingKeywords, pyContains (pyLower msg) w = true := List.any_eq_true
  have e3 : (outageKeywords.any fun w => pyContains (pyLower msg) w) = true ↔
      ∃ w ∈ outageKeywords, pyContains (pyLower msg) w = true := List.any_eq_true
  refine ⟨?_, ?_, ?_, ?_⟩
  · intro h
    simp only [intent]
    rw [if_pos (e1.mpr h)]
  · intro h1 h2
    simp only [intent]
    rw [if_neg (fun hc => h1 (e1.mp hc)), if_pos (e2.mpr h2)]
  · intro h1 h2 h3
    simp only [intent]
    rw [if_neg (fun hc => h1 (e1.mp hc)), if_neg (fun hc => h2 (e2.mp hc)),
      if_pos (e3.mpr h3)]
  · intro h1 h2 h3
    simp only [intent]
    rw [if_neg (fun hc => h1 (e1.mp hc)), if_neg (fun hc => h2 (e2.mp hc)),
      if_neg (fun hc => h3 (e3.mp hc))]

/-- Witness for C3: a message holding a cutoff keyword in capitals
next to a billing and an outage keyword is classified `"cutoff"`. -/
theorem intent_priority_chain_witness :
    (∃ w ∈ cutoffKeywords,
      pyContains (pyLower "My bill is due. Any brownout or CUT-OFF today?") w = true) ∧
    intent "My bill is due. Any brownout or CUT-OFF today?" = "cutoff" := by
  have h : ∃ w ∈ cutoffKeywords,
      pyContains (pyLower "My bill is due. Any brownout or CUT-OFF today?") w = true := by
    decide
  exact ⟨h, (intent_priority_chain "My bill is due. Any brownout or CUT-OFF today?").1 h⟩

/-! ## The sliding-window property of `remember` (C4) -/

/-- The last `n` elements of a list (Python `l[-n:]` for `n > 0`). -/
def lastN (n : Nat) (l : List α) : List α := l.drop (l.length - n)

/-- Replay a sequence of `remember` calls (`psid`, `role`, `text`)
against the initially empty store. -/
def runRemembers (ops : List (String × String × String)) : Convo :=
  ops.foldl (fun c op => remember c op.1 op.2.1 op.2.2) emptyConvo

/-- The turns appended for user `psid` by a sequence of `remember`
calls, in call order. -/
def turnsOf (psid : String) (ops : List (String × String × String)) : List ConvoTurn :=
  (ops.filter (fun op => op.1 == psid)).map (fun op => ⟨op.2.1, op.2.2⟩)

lemma length_lastN_le (n : Nat) (l : List α) : (lastN n l).length ≤ n := by
  simp only [lastN, List.length_drop]
  omega

lemma lastN_of_length_le (n : Nat) (l : List α) (h : l.length ≤ n) : lastN n l = l := by
  simp only [lastN]
  rw [show l.length - n = 0 by omega, List.drop_zero]

/-- Appending one element to the `n`-window of `s` and re-trimming
yields the `n`-window of `s ++ [t]`. -/
lemma lastN_append_singleton (n : Nat) (hn : 0 < n) (s : List α) (t : α) :
    (if (lastN n s ++ [t]).length > n then
       (lastN n s ++ [t]).drop ((lastN n s ++ [t]).length - n)
     else lastN n s ++ [t]) = lastN n (s ++ [t]) := by
  rcases Nat.lt_or_ge s.length n with hlt | hge
  · have hle : (lastN n s ++ [t]).length ≤ n := by
      simp only [List.length_append, lastN, List.length_drop, List.length_cons,
        List.length_nil]
      omega
    rw [if_neg (by omega)]
    rw [lastN_of_length_le n s (Nat.le_of_lt hlt),
      lastN_of_length_le n (s ++ [t])
        (by simp only [List.length_append, List.length_cons, List.length_nil]; omega)]
  · have hlen : (lastN n s).length = n := by
      simp only [lastN, List.length_drop]
      omega
    have hlen2 : (lastN n s ++ [t]).length = n + 1 := by
      simp only [List.length_append, hlen, List.length_cons, List.length_nil]
    rw [if_pos (by omega), hlen2, show n + 1 - n = 1 from by omega]
    have h1 : List.drop 1 (lastN n s ++ [t]) = List.drop (s.length - n + 1) s ++ [t] := by
      rw [List.drop_append_eq_append_drop, hlen, show 1 - n = 0 from by omega,
        List.drop_zero]
      simp only [lastN, List.drop_drop]
    have h2 : lastN n (s ++ [t]) = List.drop (s.length + 1 - n) s ++ [t] := by
      simp only [lastN, List.length_append, List.length_cons, List.length_nil,
        Nat.zero_add, List.drop_append_eq_append_drop]
      rw [show s.length + 1 - n - s.length = 0 from by omega, List.drop_zero]
    rw [h1, h2, show s.length - n + 1 = s.length + 1 - n from by omega]

lemma runRemembers_append (ops : List (String × String × String))
    (op : String × String × String) :
    runRemembers (ops ++ [op])
      = remember (runRemembers ops) op.1 op.2.1 op.2.2 := by
  simp [runRemembers, List.foldl_append]

/-- C4: after any sequence of `remember` calls, the stored per-user
history is exactly the window of the `MAX_TURNS * 2` most recently
appended turns of that user, in insertion order — hence holds at most
`MAX_TURNS * 2` entries, evicting the oldest first. -/
theorem remember_sliding_window (ops : List (String × String × String)) (psid : String) :
    readHistory (runRemembers ops) psid = lastN (MAX_TURNS * 2) (turnsOf psid ops) ∧
    (readHistory (runRemembers ops) psid).length ≤ MAX_TURNS * 2 := by
  have main : readHistory (runRemembers ops) psid
      = lastN (MAX_TURNS * 2) (turnsOf psid ops) := by
    induction ops using List.reverseRecOn with
    | nil => rfl
    | append_singleton ops op ih =>
      rw [runRemembers_append]
      simp only [readHistory] at ih ⊢
      by_cases hp : psid = op.1
      · subst hp
        have hturns : turnsOf op.1 (ops ++ [op])
            = turnsOf op.1 ops ++ [⟨op.2.1, op.2.2⟩] := by
          simp [turnsOf, List.filter_append]
        simp only [remember, if_pos rfl, Option.getD_some]
        rw [hturns, ih]
        exact lastN_append_singleton (MAX_TURNS * 2) (by decide)
          (turnsOf op.1 ops) ⟨op.2.1, op.2.2⟩
      · have hop : (op.1 == psid) = false := by
          simp only [beq_eq_false_iff_ne, ne_eq]
          exact fun h => hp h.symm
        have hturns : turnsOf psid (ops ++ [op]) = turnsOf psid ops := by
          simp [turnsOf, List.filter_append, hop]
        simp only [remember, if_neg hp]
        rw [hturns]
        exact ih
  exact ⟨main, main ▸ length_lastN_le (MAX_TURNS * 2) (turnsOf psid ops)⟩

/-! ## Retrieval theorems (C1) -/

lemma topChunksStep_length (chunks : List String) (cosSim : Nat → ℚ)
    (out : List String) (p : Int × ℚ) :
    (topChunksStep chunks cosSim out p).length ≤ out.length + 1 := by
  unfold topChunksStep
  split_ifs <;> simp

lemma topChunks_foldl_length (chunks : List String) (cosSim : Nat → ℚ)
    (l : List (Int × ℚ)) (acc : List String) :
    ((l.foldl (topChunksStep chunks cosSim) acc).length ≤ acc.length + l.length) := by
  induction l generalizing acc with
  | nil => simp
  | cons p l ih =>
    simp only [List.foldl_cons, List.length_cons]
    have h1 := ih (topChunksStep chunks cosSim acc p)
    have h2 := topChunksStep_length chunks cosSim acc p
    omega

lemma topChunks_foldl_mem (chunks : List String) (cosSim : Nat → ℚ)
    (l : List (Int × ℚ)) (acc : List String)
    (hvalid : ∀ p ∈ l, p.1 ≠ -1 → p.1.toNat < chunks.length) :
    ∀ s ∈ l.foldl (topChunksStep chunks cosSim) acc,
      s ∈ acc ∨ ∃ j, j < chunks.length ∧ chunks.getD j "" = s ∧ (45 : ℚ) / 100 ≤ cosSim j := by
  induction l generalizing acc with
  | nil => intro s hs; exact Or.inl hs
  | cons p l ih =>
    intro s hs
    simp only [List.foldl_cons] at hs
    have hvalid' : ∀ q ∈ l, q.1 ≠ -1 → q.1.toNat < chunks.length :=
      fun q hq => hvalid q (List.mem_cons_of_mem p hq)
    rcases ih (topChunksStep chunks cosSim acc p) hvalid' s hs with hacc | hgood
    · unfold topChunksStep at hacc
      split_ifs at hacc with h1 h2
      · exact Or.inl hacc
      · rcases List.mem_append.mp hacc with h | h
        · exact Or.inl h
        · exact Or.inr ⟨p.1.toNat, hvalid p (List.mem_cons_self p l) h1,
            (List.mem_singleton.mp h).symm, h2⟩
      · exact Or.inl hacc
    · exact Or.inr hgood

lemma topChunks_foldl_below (chunks : List String) (cosSim : Nat → ℚ)
    (l : List (Int × ℚ)) (acc : List String)
    (h : ∀ j, cosSim j < 45 / 100) :
    l.foldl (topChunksStep chunks cosSim) acc = acc := by
  induction l generalizing acc with
  | nil => rfl
  | cons p l ih =>
    simp only [List.foldl_cons]
    have hstep : topChunksStep chunks cosSim acc p = acc := by
      unfold topChunksStep
      split_ifs with h1 h2
      · rfl
      · exact absurd h2 (not_le.mpr (h p.1.toNat))
      · rfl
    rw [hstep, ih]

/-- C1: `top_chunks` returns at most `k` texts (with `I` the FAISS
row of `k` candidate indices), each of which is a corpus chunk whose
cosine similarity to the query is at least `0.45`; when every chunk
scores below the threshold, the result is empty. -/
theorem top_chunks_spec (chunks : List String) (cosSim : Nat → ℚ)
    (I : List Int) (D : List ℚ) (k : Nat) (hk : I.length = k)
    (hvalid : ∀ i ∈ I, i ≠ -1 → i.toNat < chunks.length) :
    (top_chunks chunks cosSim I D).length ≤ k ∧
    (∀ s ∈ top_chunks chunks cosSim I D,
        s ∈ chunks ∧ ∃ j, j < chunks.length ∧ chunks.getD j "" = s ∧
          (45 : ℚ) / 100 ≤ cosSim j) ∧
    ((∀ j, cosSim j < 45 / 100) → top_chunks chunks cosSim I D = []) := by
  refine ⟨?_, ?_, ?_⟩
  · have h1 := topChunks_foldl_length chunks cosSim (I.zip D) []
    simp only [List.length_nil, Nat.zero_add] at h1
    have h2 : (I.zip D).length ≤ I.length := by
      rw [List.length_zip]
      omega
    unfold top_chunks
    omega
  · intro s hs
    have hvalid' : ∀ p ∈ I.zip D, p.1 ≠ -1 → p.1.toNat < chunks.length := by
      intro p hp
      exact hvalid p.1 (List.of_mem_zip hp).1
    rcases topChunks_foldl_mem chunks cosSim (I.zip D) [] hvalid' s hs with h | h
    · exact absurd h (List.not_mem_nil s)
    · rcases h with ⟨j, hj, hgot, hcos⟩
      refine ⟨?_, j, hj, hgot, hcos⟩
      rw [← hgot, List.getD_eq_getElem chunks "" hj]
      exact List.getElem_mem hj
  · intro h
    exact topChunks_foldl_below chunks cosSim (I.zip D) [] h

/-- Witness for C1: a two-chunk corpus where only chunk 0 clears the
threshold; the FAISS row carries a `-1` padding entry. -/
theorem top_chunks_spec_witness :
    ([0, -1, 1] : List Int).length = 3 ∧
    (∀ i ∈ ([0, -1, 1] : List Int), i ≠ -1 →
      i.toNat < (["chunk A", "chunk B"] : List String).length) ∧
    ((top_chunks ["chunk A", "chunk B"]
        (fun j => if j = 0 then 1 / 2 else 1 / 10) [0, -1, 1] [0, 0, 0]).length ≤ 3 ∧
      (∀ s ∈ top_chunks ["chunk A", "chunk B"]
          (fun j => if j = 0 then 1 / 2 else 1 / 10) [0, -1, 1] [0, 0, 0],
        s ∈ (["chunk A", "chunk B"] : List String) ∧
        ∃ j, j < (["chunk A", "chunk B"] : List String).length ∧
          (["chunk A", "chunk B"] : List String).getD j "" = s ∧
          (45 : ℚ) / 100 ≤ (if j = 0 then (1 : ℚ) / 2 else 1 / 10)) ∧
      ((∀ j, (if j = 0 then (1 : ℚ) / 2 else 1 / 10) < 45 / 100) →
        top_chunks ["chunk A", "chunk B"]
          (fun j => if j = 0 then 1 / 2 else 1 / 10) [0, -1, 1] [0, 0, 0] = [])) :=
  ⟨rfl, by decide,
    top_chunks_spec ["chunk A", "chunk B"] (fun j => if j = 0 then 1 / 2 else 1 / 10)
      [0, -1, 1] [0, 0, 0] 3 rfl (by decide)⟩

/-! ## Orchestrator branch equations (helpers for C5, C7, C8) -/

lemma intent_cases (msg : String) :
    intent msg = "cutoff" ∨ intent msg = "billing" ∨ intent msg = "outage" ∨
      intent msg = "general" := by
  unfold intent
  by_cases h1 : (cutoffKeywords.any fun w => pyContains (pyLower msg) w) = true
  · simp [h1]
  · by_cases h2 : (billingKeywords.any fun w => pyContains (pyLower msg) w) = true
    · simp [h1, h2]
    · by_cases h3 : (outageKeywords.any fun w => pyContains (pyLower msg) w) = true
      · simp [h1, h2, h3]
      · simp [h1, h2, h3]

lemma gr_cutoff (o : TurnOracle) (c : Convo) (psid msg : String)
    (h : intent msg = "cutoff") :
    generate_reply o c psid msg = (.ok cutoffReply, remember c psid "user" msg, 0) := by
  unfold generate_reply
  rw [h]
  simp

lemma gr_billing (o : TurnOracle) (c : Convo) (psid msg : String)
    (h : intent msg = "billing") :
    generate_reply o c psid msg = (.ok billingReply, remember c psid "user" msg, 0) := by
  unfold generate_reply
  rw [h]
  simp

lemma gr_outage (o : TurnOracle) (c : Convo) (psid msg : String)
    (h : intent msg = "outage") :
    generate_reply o c psid msg = (.ok outageReply, remember c psid "user" msg, 0) := by
  unfold generate_reply
  rw [h]
  simp

lemma gr_retrieval_error (o : TurnOracle) (c : Convo) (psid msg e : String)
    (hg : intent msg = "general") (hret : o.retrieval msg = .error e) :
    generate_reply o c psid msg = (.error e, remember c psid "user" msg, 0) := by
  unfold generate_reply
  rw [hg]
  simp [hret]

lemma gr_gateway_error (o : TurnOracle) (c : Convo) (psid msg : String)
    (chunks : List String) (out : LLMOut) (sql : String) (e : SqlError)
    (hg : intent msg = "general") (hret : o.retrieval msg = .ok chunks)
    (hfc : o.firstCall (builtMessages (remember c psid "user" msg) psid msg chunks)
      = .ok out)
    (hsql : out.functionCallSql = some sql)
    (hexec : (execute_sql o.db sql).1 = .error e) :
    generate_reply o c psid msg =
      (.ok ("⚠️ SQL error: " ++ e.message),
       remember (remember c psid "user" msg) psid "assistant"
         ("⚠️ SQL error: " ++ e.message),
       1) := by
  unfold generate_reply
  rw [hg]
  simp [hret, hfc, hsql, hexec]

lemma gr_firstCall_error (o : TurnOracle) (c : Convo) (psid msg : String)
    (chunks : List String) (e : String)
    (hg : intent msg = "general") (hret : o.retrieval msg = .ok chunks)
    (hfc : o.firstCall (builtMessages (remember c psid "user" msg) psid msg chunks)
      = .error e) :
    generate_reply o c psid msg = (.error e, remember c psid "user" msg, 1) := by
  unfold generate_reply
  rw [hg]
  simp [hret, hfc]

lemma gr_no_function_call (o : TurnOracle) (c : Convo) (psid msg : String)
    (chunks : List String) (out : LLMOut)
    (hg : intent msg = "general") (hret : o.retrieval msg = .ok chunks)
    (hfc : o.firstCall (builtMessages (remember c psid "user" msg) psid msg chunks)
      = .ok out)
    (hsql : out.functionCallSql = none) :
    generate_reply o c psid msg =
      (.ok (pyStrip out.content),
       remember (remember c psid "user" msg) psid "assistant" (pyStrip out.content),
       1) := by
  unfold generate_reply
  rw [hg]
  simp [hret, hfc, hsql]

lemma gr_followup_error (o : TurnOracle) (c : Convo) (psid msg : String)
    (chunks : List String) (out : LLMOut) (sql : String)
    (result : List (List (String × String))) (e : String)
    (hg : intent msg = "general") (hret : o.retrieval msg = .ok chunks)
    (hfc : o.firstCall (builtMessages (remember c psid "user" msg) psid msg chunks)
      = .ok out)
    (hsql : out.functionCallSql = some sql)
    (hexec : (execute_sql o.db sql).1 = .ok result)
    (hfu : o.followup (builtMessages (remember c psid "user" msg) psid msg chunks
        ++ [⟨"assistant", none, none, some sql⟩,
            ⟨"function", some (o.dumps result), some "execute_sql", none⟩])
      = .error e) :
    generate_reply o c psid msg = (.error e, remember c psid "user" msg, 2) := by
  unfold generate_reply
  rw [hg]
  simp [hret, hfc, hsql, hexec, hfu]

lemma gr_followup_ok (o : TurnOracle) (c : Convo) (psid msg : String)
    (chunks : List String) (out : LLMOut) (sql : String)
    (result : List (List (String × String))) (content : String)
    (hg : intent msg = "general") (hret : o.retrieval msg = .ok chunks)
    (hfc : o.firstCall (builtMessages (remember c psid "user" msg) psid msg chunks)
      = .ok out)
    (hsql : out.functionCallSql = some sql)
    (hexec : (execute_sql o.db sql).1 = .ok result)
    (hfu : o.followup (builtMessages (remember c psid "user" msg) psid msg chunks
        ++ [⟨"assistant", none, none, some sql⟩,
            ⟨"function", some (o.dumps result), some "execute_sql", none⟩])
      = .ok content) :
    generate_reply o c psid msg =
      (.ok (pyStrip content),
       remember (remember c psid "user" msg) psid "assistant" (pyStrip content),
       2) := by
  unfold generate_reply
  rw [hg]
  simp [hret, hfc, hsql, hexec, hfu]

/-! ## Orchestrator claim theorems (C5, C7, C8) -/

/-- An oracle whose external services all succeed trivially. -/
def trivialOracle : TurnOracle :=
  ⟨fun _ => .ok [], fun _ => .ok ⟨none, "fine"⟩, fun _ => .ok "fine", demoDb, fun _ => "[]"⟩

/-- C5 (counterexample): on the canned `cutoff` path the reply is
returned directly after the canned branch; only the user message is
in the store — the answer text is never persisted, contradicting the
claim that both are. -/
theorem generate_reply_canned_skips_answer_persist :
    (generate_reply trivialOracle emptyConvo "1122" "cutoff").1 = .ok cutoffReply ∧
    readHistory (generate_reply trivialOracle emptyConvo "1122" "cutoff").2.1 "1122"
      = [⟨"user", "cutoff"⟩] ∧
    (⟨"assistant", cutoffReply⟩ : ConvoTurn) ∉
      readHistory (generate_reply trivialOracle emptyConvo "1122" "cutoff").2.1 "1122" := by
  have h := gr_cutoff trivialOracle emptyConvo "1122" "cutoff" (by decide)
  rw [h]
  exact ⟨rfl, by decide, by decide⟩

/-- C5 (amended): the user message is always persisted on entry; the
final answer is additionally persisted only on the `general`-intent
path when the turn returns normally — the canned branches return
without storing their reply. -/
theorem generate_reply_memory_update (o : TurnOracle) (c : Convo) (psid msg : String) :
    (intent msg ≠ "general" →
      (generate_reply o c psid msg).2.1 = remember c psid "user" msg) ∧
    (intent msg = "general" → ∀ a, (generate_reply o c psid msg).1 = .ok a →
      (generate_reply o c psid msg).2.1
        = remember (remember c psid "user" msg) psid "assistant" a) := by
  constructor
  · intro h
    rcases intent_cases msg with h1 | h1 | h1 | h1
    · rw [gr_cutoff o c psid msg h1]
    · rw [gr_billing o c psid msg h1]
    · rw [gr_outage o c psid msg h1]
    · exact absurd h1 h
  · intro hg a hok
    rcases hret : o.retrieval msg with e | chunks
    · rw [gr_retrieval_error o c psid msg e hg hret] at hok
      exact absurd hok (by simp)
    · rcases hfc : o.firstCall (builtMessages (remember c psid "user" msg) psid msg chunks)
          with e | out
      · rw [gr_firstCall_error o c psid msg chunks e hg hret hfc] at hok
        exact absurd hok (by simp)
      · rcases hsql : out.functionCallSql with _ | sql
        · rw [gr_no_function_call o c psid msg chunks out hg hret hfc hsql] at hok ⊢
          have ha : pyStrip out.content = a := by simpa using hok
          subst ha
          rfl
        · rcases hexec : (execute_sql o.db sql).1 with e | result
          · rw [gr_gateway_error o c psid msg chunks out sql e hg hret hfc hsql hexec]
              at hok ⊢
            have ha : "⚠️ SQL error: " ++ e.message = a := by simpa using hok
            subst ha
            rfl
          · rcases hfu : o.followup (builtMessages (remember c psid "user" msg) psid msg
                chunks ++ [⟨"assistant", none, none, some sql⟩,
                  ⟨"function", some (o.dumps result), some "execute_sql", none⟩])
                with e | content
            · rw [gr_followup_error o c psid msg chunks out sql result e hg hret hfc hsql
                hexec hfu] at hok
              exact absurd hok (by simp)
            · rw [gr_followup_ok o c psid msg chunks out sql result content hg hret hfc
                hsql hexec hfu] at hok ⊢
              have ha : pyStrip content = a := by simpa using hok
              subst ha
              rfl

/-- Witness for the amended C5 on the canned branch. -/
theorem generate_reply_memory_update_witness :
    intent "cutoff" ≠ "general" ∧
    (generate_reply trivialOracle emptyConvo "1122" "cutoff").2.1
      = remember emptyConvo "1122" "user" "cutoff" :=
  ⟨by decide,
    (generate_reply_memory_update trivialOracle emptyConvo "1122" "cutoff").1 (by decide)⟩

/-- An oracle whose embedding/retrieval call raises. -/
def failRetrievalOracle : TurnOracle :=
  ⟨fun _ => .error "embedding service unavailable",
   fun _ => .ok ⟨none, "fine"⟩, fun _ => .ok "fine", demoDb, fun _ => "[]"⟩

/-- C7 (counterexample): a failure of the embedding/retrieval call is
not caught anywhere in `generate_reply` — it propagates out of the
call (the `.error` outcome of the model), so the turn does not proceed
without grounding and the error is not converted to reply text. -/
theorem generate_reply_retrieval_error_propagates :
    intent "Hello there" = "general" ∧
    (generate_reply failRetrievalOracle emptyConvo "777" "Hello there").1
      = .error "embedding service unavailable" := by
  refine ⟨by decide, ?_⟩
  rw [gr_retrieval_error failRetrievalOracle emptyConvo "777" "Hello there"
    "embedding service unavailable" (by decide) rfl]

/-- C7 (amended): the only per-turn error converted into user-visible
text is a Safe-Query-Gateway failure inside the tool-call branch; a
failure of the embedding/retrieval call propagates out of
`generate_reply` (aborting the turn with no memory of an answer)
instead of being treated as "no grounding". -/
theorem generate_reply_error_policy (o : TurnOracle) (c : Convo) (psid msg : String) :
    (∀ e, intent msg = "general" → o.retrieval msg = .error e →
      generate_reply o c psid msg = (.error e, remember c psid "user" msg, 0)) ∧
    (∀ chunks out sql e, intent msg = "general" → o.retrieval msg = .ok chunks →
      o.firstCall (builtMessages (remember c psid "user" msg) psid msg chunks) = .ok out →
      out.functionCallSql = some sql →
      (execute_sql o.db sql).1 = .error e →
      (generate_reply o c psid msg).1 = .ok ("⚠️ SQL error: " ++ e.message)) := by
  constructor
  · intro e hg hret
    exact gr_retrieval_error o c psid msg e hg hret
  · intro chunks out sql e hg hret hfc hsql hexec
    rw [gr_gateway_error o c psid msg chunks out sql e hg hret hfc hsql hexec]

/-- Witness for the amended C7: the retrieval failure surfaces as the
outcome of the turn. -/
theorem generate_reply_error_policy_witness :
    generate_reply failRetrievalOracle emptyConvo "777" "Hello there"
      = (.error "embedding service unavailable",
         remember emptyConvo "777" "user" "Hello there", 0) :=
  (generate_reply_error_policy failRetrievalOracle emptyConvo "777" "Hello there").1
    "embedding service unavailable" (by decide) rfl

/-- C8: when the first model response elects the `execute_sql`
capability and the Gateway call fails — validation, connectivity or
execution — the warning string with the failure description is the
answer, no second chat request is issued (request count stays 1), and
the warning is persisted as the assistant turn. -/
theorem gateway_failure_skips_second_call (o : TurnOracle) (c : Convo) (psid msg : String)
    (chunks : List String) (out : LLMOut) (sql : String) (e : SqlError)
    (hg : intent msg = "general") (hret : o.retrieval msg = .ok chunks)
    (hfc : o.firstCall (builtMessages (remember c psid "user" msg) psid msg chunks)
      = .ok out)
    (hsql : out.functionCallSql = some sql)
    (hexec : (execute_sql o.db sql).1 = .error e) :
    generate_reply o c psid msg =
      (.ok ("⚠️ SQL error: " ++ e.message),
       remember (remember c psid "user" msg) psid "assistant"
         ("⚠️ SQL error: " ++ e.message),
       1) :=
  gr_gateway_error o c psid msg chunks out sql e hg hret hfc hsql hexec

/-- An oracle whose first model response elects the capability with a
forbidden statement. -/
def electDropOracle : TurnOracle :=
  ⟨fun _ => .ok [], fun _ => .ok ⟨some "DROP TABLE x", "irrelevant"⟩,
   fun _ => .ok "fine", demoDb, fun _ => "[]"⟩

/-- Witness for C8: the model elects `execute_sql("DROP TABLE x")`,
the Gateway rejects it, and the single-round-trip warning turn
results. -/
theorem gateway_failure_skips_second_call_witness :
    generate_reply electDropOracle emptyConvo "42" "Hello there"
      = (.ok ("⚠️ SQL error: "
            ++ SqlError.message (.validation "Only SELECT queries are allowed.")),
         remember (remember emptyConvo "42" "user" "Hello there") "42" "assistant"
           ("⚠️ SQL error: "
            ++ SqlError.message (.validation "Only SELECT queries are allowed.")),
         1) :=
  gateway_failure_skips_second_call electDropOracle emptyConvo "42" "Hello there"
    [] ⟨some "DROP TABLE x", "irrelevant"⟩ "DROP TABLE x"
    (.validation "Only SELECT queries are allowed.")
    (by decide) rfl rfl rfl rfl

end C3Chatbot
